import Mathlib

/-! Shallow embedding of the `classificacao-frontend` review/verification
workflow: the auth session store (`lib/auth.ts`), the API gateway client
(`lib/api.ts` / `apiRequest`), the filter selector (`FilterBar`), the
manual classification page (`ClassificarPage`) and the verification page
(`VerificarPage`).  React state is modelled as explicit records; an async
handler is modelled as a function from the pre-state and the outcomes of
its awaited requests to the post-state together with the list of network
requests it issued and the list of alert messages it showed.
-/

namespace Pluri

/-- A module candidate offered by the server for a question
(`modulos_possiveis` entries): id, module name, skill description,
subject description. -/
structure Modulo where
  id : Nat
  modulo : String
  habilidade_descricao : String
  descricao : String
  deriving Repr, DecidableEq

/-- The kind of a classification decision (`tipo_acao` in the POST body). -/
inductive TipoAcao where
  | classificacao_nova
  | confirmacao
  | correcao
  deriving Repr, DecidableEq

/-- The JSON body POSTed to `/salvar`.  The module-related fields are
`Option`s: `handleConfirmar` omits them entirely, the other two handlers
always fill them from the selected module candidate. -/
structure SalvarBody where
  questao_id : Nat
  habilidade_modulo_id : Option Nat
  modulo_escolhido : Option String
  classificacao_trieduc : Option String
  descricao_assunto : Option String
  tipo_acao : TipoAcao
  observacao : String
  deriving Repr, DecidableEq

/-- A question as delivered by `/proxima` or `/proxima-low-match`.
Only the fields the workflow logic reads are modelled; `similaridade`
is the upstream similarity score (null for the plain review path),
`classificacao_nao_enquadrada` the upstream-suggested tags. -/
structure Questao where
  id : Nat
  disciplina_nome : String
  habilidade_descricao : String
  enunciado : String
  similaridade : Option ℚ
  classificacao_nao_enquadrada : List String
  modulos_possiveis : List Modulo
  deriving Repr, DecidableEq

/-- An outbound network request issued by a workflow handler. -/
inductive Request where
  | getProxima (params : List (String × String))
  | getProximaLowMatch (params : List (String × String))
  | postSalvar (body : SalvarBody)
  deriving Repr, DecidableEq

/-- Whether the request is a `Request.postSalvar` (used to state that fetch/skip submit nothing). -/
def Request.isPost : Request → Bool
  | .postSalvar _ => true
  | _ => false

/-- The component state of `ClassificarPage`: question in hand, loading
flag, error message (empty = no error), active filters, saving flag,
observation text and the selected module candidate. -/
structure ClassificarState where
  questao : Option Questao
  loading : Bool
  error : String
  area : String
  disciplinaFiltro : String
  saving : Bool
  observacao : String
  moduloSelecionado : Option Modulo
  deriving Repr, DecidableEq

/-- The effects of running a handler: the requests it issued, in order,
and the `alert` messages it showed. -/
structure Effects where
  requests : List Request
  alerts : List String
  deriving Repr, DecidableEq

/-- Query string built by `fetchProxima`: `if (areaFiltro)
query.append('area', areaFiltro)` and likewise for `disciplina_id`;
an empty string is falsy in JS, so empty filters are omitted. -/
def buildQuery (areaFiltro discFiltro : String) : List (String × String) :=
  (if areaFiltro ≠ "" then [("area", areaFiltro)] else []) ++
  (if discFiltro ≠ "" then [("disciplina_id", discFiltro)] else [])

/-- The synchronous prefix of `ClassificarPage.fetchProxima`:
`setLoading(true); setError(''); setQuestao(null);
setModuloSelecionado(null); setObservacao('')`. -/
def fetchProximaStart (s : ClassificarState) : ClassificarState :=
  { s with loading := true, error := "", questao := none,
           moduloSelecionado := none, observacao := "" }

/-- The continuation of `ClassificarPage.fetchProxima` after the awaited
`apiRequest` resolves: on success hold the question, on failure hold the
error message (`err.message || 'Nenhuma questão encontrada com esses
filtros.'`); `finally setLoading(false)`. -/
def fetchProximaFinish (s : ClassificarState) (result : Except String Questao) :
    ClassificarState :=
  match result with
  | .ok q => { s with questao := some q, loading := false }
  | .error msg =>
      { s with error := if msg = "" then "Nenhuma questão encontrada com esses filtros." else msg,
               loading := false }

/-- Model of `ClassificarPage.fetchProxima(areaFiltro, discFiltro)` as a whole:
the post-state once the awaited GET `/proxima` resolves with `result`,
plus the single GET request it issued. -/
def fetchProxima (areaFiltro discFiltro : String) (s : ClassificarState)
    (result : Except String Questao) : ClassificarState × Effects :=
  (fetchProximaFinish (fetchProximaStart s) result,
   { requests := [Request.getProxima (buildQuery areaFiltro discFiltro)], alerts := [] })

/-- The POST body built by `ClassificarPage.handleSalvar` from the held
question, the selected module and the observation text. -/
def salvarBodyNova (questaoId : Nat) (m : Modulo) (observacao : String) : SalvarBody :=
  { questao_id := questaoId,
    habilidade_modulo_id := some m.id,
    modulo_escolhido := some m.modulo,
    classificacao_trieduc := some m.habilidade_descricao,
    descricao_assunto := some m.descricao,
    tipo_acao := .classificacao_nova,
    observacao := observacao }

/-- Model of `ClassificarPage.handleSalvar`: it returns immediately when no module is
selected; otherwise `setSaving(true)`, POST `/salvar` with
`tipo_acao: 'classificacao_nova'`, on success `fetchProxima(area,
disciplinaFiltro)` with the closure-captured filter values, on failure
`alert(err.message)`, `finally setSaving(false)`.  `saveResult` is the
outcome of the POST, `fetchResult` the outcome of the follow-up GET
(unused when the POST fails or never happens). -/
def handleSalvar (s : ClassificarState) (saveResult : Except String Unit)
    (fetchResult : Except String Questao) : ClassificarState × Effects :=
  match s.moduloSelecionado with
  | none => (s, { requests := [], alerts := [] })
  | some m =>
    let s1 := { s with saving := true }
    let body := salvarBodyNova (s.questao.elim 0 (·.id)) m s.observacao
    match saveResult with
    | .ok _ =>
        let (s2, eff) := fetchProxima s1.area s1.disciplinaFiltro s1 fetchResult
        ({ s2 with saving := false },
         { requests := Request.postSalvar body :: eff.requests, alerts := eff.alerts })
    | .error msg =>
        ({ s1 with saving := false },
         { requests := [Request.postSalvar body], alerts := [msg] })

/-- The component state of `VerificarPage`: the `ClassificarPage` fields
plus the `isCorrecting` sub-mode flag (false = reviewing). -/
structure VerificarState where
  questao : Option Questao
  loading : Bool
  error : String
  area : String
  disciplinaFiltro : String
  saving : Bool
  observacao : String
  moduloSelecionado : Option Modulo
  isCorrecting : Bool
  deriving Repr, DecidableEq

/-- The synchronous prefix of `VerificarPage.fetchProxima`: same resets
as the classification page plus `setIsCorrecting(false)`. -/
def fetchProximaVerifStart (s : VerificarState) : VerificarState :=
  { s with loading := true, error := "", questao := none,
           moduloSelecionado := none, observacao := "", isCorrecting := false }

/-- The continuation of `VerificarPage.fetchProxima` after the awaited
GET `/proxima-low-match` resolves (default message `err.message ||
'Nenhuma questão de baixa similaridade pendente.'`). -/
def fetchProximaVerifFinish (s : VerificarState) (result : Except String Questao) :
    VerificarState :=
  match result with
  | .ok q => { s with questao := some q, loading := false }
  | .error msg =>
      { s with error := if msg = "" then "Nenhuma questão de baixa similaridade pendente." else msg,
               loading := false }

/-- Model of `VerificarPage.fetchProxima(areaFiltro, discFiltro)` as a whole. -/
def fetchProximaVerif (areaFiltro discFiltro : String) (s : VerificarState)
    (result : Except String Questao) : VerificarState × Effects :=
  (fetchProximaVerifFinish (fetchProximaVerifStart s) result,
   { requests := [Request.getProximaLowMatch (buildQuery areaFiltro discFiltro)], alerts := [] })

/-- The POST body built by `VerificarPage.handleConfirmar`: only
`questao_id`, `tipo_acao: 'confirmacao'` and `observacao`; no module
fields at all. -/
def salvarBodyConfirmacao (questaoId : Nat) (observacao : String) : SalvarBody :=
  { questao_id := questaoId,
    habilidade_modulo_id := none,
    modulo_escolhido := none,
    classificacao_trieduc := none,
    descricao_assunto := none,
    tipo_acao := .confirmacao,
    observacao := observacao }

/-- The POST body built by `VerificarPage.handleSalvarCorrecao`. -/
def salvarBodyCorrecao (questaoId : Nat) (m : Modulo) (observacao : String) : SalvarBody :=
  { questao_id := questaoId,
    habilidade_modulo_id := some m.id,
    modulo_escolhido := some m.modulo,
    classificacao_trieduc := some m.habilidade_descricao,
    descricao_assunto := some m.descricao,
    tipo_acao := .correcao,
    observacao := observacao }

/-- Model of `VerificarPage.handleConfirmar`: no module guard — it always
`setSaving(true)` and POSTs the confirmation body; on success it
refetches with the closure-captured filters, on failure
`alert(err.message)`; `finally setSaving(false)`. -/
def handleConfirmar (s : VerificarState) (saveResult : Except String Unit)
    (fetchResult : Except String Questao) : VerificarState × Effects :=
  let s1 := { s with saving := true }
  let body := salvarBodyConfirmacao (s.questao.elim 0 (·.id)) s.observacao
  match saveResult with
  | .ok _ =>
      let (s2, eff) := fetchProximaVerif s1.area s1.disciplinaFiltro s1 fetchResult
      ({ s2 with saving := false },
       { requests := Request.postSalvar body :: eff.requests, alerts := eff.alerts })
  | .error msg =>
      ({ s1 with saving := false },
       { requests := [Request.postSalvar body], alerts := [msg] })

/-- Model of `VerificarPage.handleSalvarCorrecao`: it returns immediately when no
module is selected; otherwise POSTs the correction body, refetching on
success and alerting on failure, `finally setSaving(false)`. -/
def handleSalvarCorrecao (s : VerificarState) (saveResult : Except String Unit)
    (fetchResult : Except String Questao) : VerificarState × Effects :=
  match s.moduloSelecionado with
  | none => (s, { requests := [], alerts := [] })
  | some m =>
    let s1 := { s with saving := true }
    let body := salvarBodyCorrecao (s.questao.elim 0 (·.id)) m s.observacao
    match saveResult with
    | .ok _ =>
        let (s2, eff) := fetchProximaVerif s1.area s1.disciplinaFiltro s1 fetchResult
        ({ s2 with saving := false },
         { requests := Request.postSalvar body :: eff.requests, alerts := eff.alerts })
    | .error msg =>
        ({ s1 with saving := false },
         { requests := [Request.postSalvar body], alerts := [msg] })

/-! Section: API gateway client (`lib/api.ts`, `apiRequest`) -/

/-- The persisted session (`localStorage` keys `token` and `usuario`). -/
structure Session where
  token : Option String
  usuario : Option String
  deriving Repr, DecidableEq

/-- An HTTP response as seen by `apiRequest`: the status code, the
`detail` field of the error body when the body parsed to JSON and had
one (`errorData.detail`, with `.catch(() => ({}))` collapsing a parse
failure to no detail), and the parsed JSON body for the success path. -/
structure HttpResponse where
  status : Nat
  errorDetail : Option String
  body : String
  deriving Repr, DecidableEq

/-- Model of `response.ok`: status in the inclusive range 200–299. -/
def respOk (status : Nat) : Bool := 200 ≤ status && status ≤ 299

/-- The result of one `apiRequest` call: the session afterwards, the
forced navigation target if any, and either the thrown error message or
the parsed body. -/
structure ApiResult where
  session : Session
  redirect : Option String
  outcome : Except String String
  deriving Repr

/-- Model of `apiRequest`: on status 401 remove `token` and `usuario` and set
`window.location.href = '/login'`; then, on any non-ok status, throw
`new Error(errorData.detail || 'Erro na requisição')`; on an ok status
return the parsed body.  There is no retry: the function is a single
pass over one response. -/
def apiRequest (session : Session) (resp : HttpResponse) : ApiResult :=
  let cleared : Session := { token := none, usuario := none }
  let session' := if resp.status = 401 then cleared else session
  let redirect := if resp.status = 401 then some "/login" else none
  if respOk resp.status then
    { session := session', redirect := redirect, outcome := .ok resp.body }
  else
    { session := session', redirect := redirect,
      outcome := .error (resp.errorDetail.getD "Erro na requisição") }

/-! Section: Auth session store (`lib/auth.ts`) -/

/-- The `Usuario` interface of `lib/auth.ts`. -/
structure Usuario where
  id : Nat
  nome : String
  email : String
  disciplina : String
  is_admin : Bool
  ativo : Bool
  deriving Repr, DecidableEq

/-- Model of `getUsuario()`: null when there is no `window`, null when
`localStorage` has no `usuario` entry, and the `try/catch` around
`JSON.parse` turns a parse failure into null; otherwise the parsed
profile.  `parseJson` models `JSON.parse` for the stored string,
returning `none` exactly when parsing would throw. -/
def getUsuario (hasWindow : Bool) (storage : List (String × String))
    (parseJson : String → Option Usuario) : Option Usuario :=
  if !hasWindow then none
  else
    match storage.lookup "usuario" with
    | none => none
    | some s => parseJson s

/-! Section: Filter selector (`FilterBar`) -/

/-- A selectable entry of the `Dropdown` component (`{value, label}`). -/
structure DropOption where
  value : String
  label : String
  deriving Repr, DecidableEq

/-- The area/discipline mapping fetched from `/disciplinas`
(`data.areas`), as an ordered association list: JS object iteration
order is the key insertion order. -/
abbrev AreasMapping := List (String × List String)

/-- The area resolved by `loadFilters` from the user's stored
`disciplina` (the `area` state starts as `''`): falsy `disciplina`
leaves it `''`; a direct key hit (`data.areas[usuario.disciplina]`)
uses it as the area; otherwise the legacy fallback scans the entries in
mapping order and takes the first whose discipline list contains the
stored value; no hit leaves `''`. -/
def resolveArea (areas : AreasMapping) (usuario : Option Usuario) : String :=
  match usuario with
  | none => ""
  | some u =>
    if u.disciplina = "" then ""
    else if (areas.map Prod.fst).contains u.disciplina then u.disciplina
    else
      match areas.find? (fun p => p.2.contains u.disciplina) with
      | some p => p.1
      | none => ""

/-- Model of `disciplinasDaArea`: `area ? (areasMapping[area] || []) : []`. -/
def disciplinasDaArea (areasMapping : AreasMapping) (area : String) : List String :=
  if area = "" then [] else (areasMapping.lookup area).getD []

/-- Model of `areaOptions`: all mapping keys, filtered by
`!usuario?.disciplina || usuario.is_admin || a === area`, mapped to
`{value: a, label: a}`. -/
def areaOptions (areasMapping : AreasMapping) (usuario : Option Usuario)
    (area : String) : List DropOption :=
  ((areasMapping.map Prod.fst).filter
    (fun a => usuario.elim "" (·.disciplina) == "" || usuario.elim false (·.is_admin)
      || a == area)).map (fun a => { value := a, label := a })

/-- Model of `disciplinaOptions`: the current area's disciplines as options. -/
def disciplinaOptions (areasMapping : AreasMapping) (area : String) : List DropOption :=
  (disciplinasDaArea areasMapping area).map (fun d => { value := d, label := d })

/-- The `FilterBar` selection state (`area` and `disciplinaId`). -/
structure FilterState where
  area : String
  disciplinaId : String
  deriving Repr, DecidableEq

/-- The area dropdown's `onChange`: guarded by
`!usuario?.disciplina || usuario.is_admin`; when allowed it
`setArea(val); setDisciplinaId('')`, otherwise it changes nothing. -/
def onAreaChange (usuario : Option Usuario) (s : FilterState) (val : String) : FilterState :=
  if usuario.elim "" (·.disciplina) == "" || usuario.elim false (·.is_admin) then
    { area := val, disciplinaId := "" }
  else s

/-- The discipline dropdown's `onChange`: `setDisciplinaId(val)`. -/
def onDisciplinaChange (s : FilterState) (val : String) : FilterState :=
  { s with disciplinaId := val }

/-- The filter invariant: the selected discipline, if set, belongs to
the currently selected area's discipline list. -/
def FilterState.inv (areasMapping : AreasMapping) (s : FilterState) : Prop :=
  s.disciplinaId = "" ∨ s.disciplinaId ∈ disciplinasDaArea areasMapping s.area

/-! Section: Similarity badge (`VerificarPage.MatchBadge`) -/

/-- The inline style colours of the badge. -/
structure BadgeStyle where
  color : String
  bg : String
  borderColor : String
  deriving Repr, DecidableEq

/-- Model of `Math.round(score * 100)`; `Math.round x = ⌊x + 1/2⌋`, which is
Mathlib's `round` on `ℚ`. -/
def matchBadgePct (score : ℚ) : ℤ := round (score * 100)

/-- The tier styling: default red, replaced by green when `pct >= 80`
and by yellow when `pct >= 60`. -/
def matchBadgeStyle (pct : ℤ) : BadgeStyle :=
  if pct ≥ 80 then { color := "#166534", bg := "#bbf7d0", borderColor := "#4ade80" }
  else if pct ≥ 60 then { color := "#854d0e", bg := "#fef08a", borderColor := "#facc15" }
  else { color := "#991b1b", bg := "#fecaca", borderColor := "#f87171" }

/-- The text rendered inside the badge: `{pct}%`. -/
def matchBadgeText (pct : ℤ) : String := toString pct ++ "%"

/-- Model of the `MatchBadge` component: it renders nothing when `score == null`,
otherwise the rounded percentage text with the tier styling. -/
def MatchBadge (score : Option ℚ) : Option (String × BadgeStyle) :=
  match score with
  | none => none
  | some s => some (matchBadgeText (matchBadgePct s), matchBadgeStyle (matchBadgePct s))

/-! Section: Sample values (used by witnesses) -/

/-- A concrete module candidate. -/
def sampleModulo : Modulo :=
  { id := 7, modulo := "Funções", habilidade_descricao := "EM13MAT101",
    descricao := "Funções afins" }

/-- A concrete question holding `sampleModulo`. -/
def sampleQuestao : Questao :=
  { id := 42, disciplina_nome := "Matemática", habilidade_descricao := "EM13MAT101",
    enunciado := "Qual o valor de x?", similaridade := some (55/100),
    classificacao_nao_enquadrada := ["Álgebra"], modulos_possiveis := [sampleModulo] }

/-- A ready classification state with no module selected. -/
def sampleClassificarSemModulo : ClassificarState :=
  { questao := some sampleQuestao, loading := false, error := "", area := "Exatas",
    disciplinaFiltro := "Matemática", saving := false, observacao := "obs",
    moduloSelecionado := none }

/-- A ready classification state with `sampleModulo` selected. -/
def sampleClassificarComModulo : ClassificarState :=
  { sampleClassificarSemModulo with moduloSelecionado := some sampleModulo }

/-- A ready verification state in reviewing mode, no module selected. -/
def sampleVerificarSemModulo : VerificarState :=
  { questao := some sampleQuestao, loading := false, error := "", area := "Exatas",
    disciplinaFiltro := "Matemática", saving := false, observacao := "obs",
    moduloSelecionado := none, isCorrecting := false }

/-- A ready verification state in correcting mode with a module selected. -/
def sampleVerificarComModulo : VerificarState :=
  { sampleVerificarSemModulo with
    moduloSelecionado := some sampleModulo
    isCorrecting := true }

/-! Section: Theorems -/

/-- Claim C1: A decision of kind `classificacao_nova` or `correcao` is
never submitted without a non-null selected module: with no module
selected `handleSalvar` and `handleSalvarCorrecao` issue no request at
all, and every `/salvar` POST they do issue carries a non-null
`habilidade_modulo_id`; a `confirmacao` decision (`handleConfirmar`) is
always submitted, with no module reference in its body. -/
theorem c1_decision_module_guard (s : ClassificarState) (t : VerificarState)
    (save : Except String Unit) (fetch : Except String Questao) :
    (s.moduloSelecionado = none → (handleSalvar s save fetch).2.requests = []) ∧
    (t.moduloSelecionado = none → (handleSalvarCorrecao t save fetch).2.requests = []) ∧
    (∀ b : SalvarBody, Request.postSalvar b ∈ (handleSalvar s save fetch).2.requests →
      b.tipo_acao = TipoAcao.classificacao_nova ∧ b.habilidade_modulo_id.isSome = true) ∧
    (∀ b : SalvarBody, Request.postSalvar b ∈ (handleSalvarCorrecao t save fetch).2.requests →
      b.tipo_acao = TipoAcao.correcao ∧ b.habilidade_modulo_id.isSome = true) ∧
    ((handleConfirmar t save fetch).2.requests.head? =
      some (Request.postSalvar (salvarBodyConfirmacao (t.questao.elim 0 (·.id)) t.observacao)) ∧
      (salvarBodyConfirmacao (t.questao.elim 0 (·.id)) t.observacao).habilidade_modulo_id = none) := by
  refine ⟨?_, ?_, ?_, ?_, ?_, ?_⟩
  · intro h; simp [handleSalvar, h]
  · intro h; simp [handleSalvarCorrecao, h]
  · intro b hb
    cases hmod : s.moduloSelecionado with
    | none => simp [handleSalvar, hmod] at hb
    | some m =>
      cases save with
      | ok u =>
        simp [handleSalvar, hmod, fetchProxima] at hb
        subst hb; simp [salvarBodyNova]
      | error msg =>
        simp [handleSalvar, hmod] at hb
        subst hb; simp [salvarBodyNova]
  · intro b hb
    cases hmod : t.moduloSelecionado with
    | none => simp [handleSalvarCorrecao, hmod] at hb
    | some m =>
      cases save with
      | ok u =>
        simp [handleSalvarCorrecao, hmod, fetchProximaVerif] at hb
        subst hb; simp [salvarBodyCorrecao]
      | error msg =>
        simp [handleSalvarCorrecao, hmod] at hb
        subst hb; simp [salvarBodyCorrecao]
  · cases save with
    | ok u => simp [handleConfirmar, fetchProximaVerif]
    | error msg => simp [handleConfirmar]
  · simp [salvarBodyConfirmacao]

/-- Witness for C1 at the sample states. -/
theorem c1_decision_module_guard_witness :
    (handleSalvar sampleClassificarSemModulo (Except.ok ()) (Except.error "")).2.requests = [] ∧
    (handleSalvarCorrecao sampleVerificarSemModulo (Except.ok ()) (Except.error "")).2.requests = [] ∧
    (salvarBodyNova 42 sampleModulo "obs").tipo_acao = TipoAcao.classificacao_nova ∧
    (salvarBodyNova 42 sampleModulo "obs").habilidade_modulo_id.isSome = true := by
  have h := c1_decision_module_guard sampleClassificarSemModulo sampleVerificarSemModulo
    (Except.ok ()) (Except.error "")
  have h2 := c1_decision_module_guard sampleClassificarComModulo sampleVerificarComModulo
    (Except.ok ()) (Except.error "")
  have h3 := h2.2.2.1 (salvarBodyNova 42 sampleModulo "obs") (by decide)
  exact ⟨h.1 rfl, h.2.1 rfl, h3.1, h3.2⟩

/-- Claim C2: `apiRequest`: on 401 the stored token and user are cleared
and navigation is forced to `/login`; on any non-success status the call
fails with the parsed `detail` when present and the generic message
otherwise; on a success status the parsed body is returned with the
session untouched and no redirect. -/
theorem c2_apiRequest_contract (sess : Session) (resp : HttpResponse) :
    (resp.status = 401 →
      (apiRequest sess resp).session = { token := none, usuario := none } ∧
      (apiRequest sess resp).redirect = some "/login" ∧
      ∀ body, (apiRequest sess resp).outcome ≠ Except.ok body) ∧
    (respOk resp.status = false →
      (apiRequest sess resp).outcome =
        Except.error (resp.errorDetail.getD "Erro na requisição")) ∧
    (respOk resp.status = false → resp.errorDetail = none →
      (apiRequest sess resp).outcome = Except.error "Erro na requisição") ∧
    (respOk resp.status = true →
      (apiRequest sess resp).outcome = Except.ok resp.body ∧
      (apiRequest sess resp).session = sess ∧
      (apiRequest sess resp).redirect = none) := by
  refine ⟨?_, ?_, ?_, ?_⟩
  · intro h401
    have hnotok : respOk 401 = false := by decide
    simp [apiRequest, h401, hnotok]
  · intro hnotok
    simp [apiRequest, hnotok]
  · intro hnotok hdet
    simp [apiRequest, hnotok, hdet]
  · intro hok
    have h401 : resp.status ≠ 401 := by
      intro h; rw [h] at hok; simp [respOk] at hok
    simp [apiRequest, hok, h401]

/-- Witness for C2: a 401 response, a 500 response with a `detail`, a
500 response without one, and a 200 response. -/
theorem c2_apiRequest_contract_witness :
    (apiRequest { token := some "t", usuario := some "u" }
        { status := 401, errorDetail := none, body := "" }).session =
      { token := none, usuario := none } ∧
    (apiRequest { token := some "t", usuario := some "u" }
        { status := 401, errorDetail := none, body := "" }).redirect = some "/login" ∧
    (apiRequest { token := some "t", usuario := some "u" }
        { status := 500, errorDetail := some "boom", body := "" }).outcome =
      Except.error "boom" ∧
    (apiRequest { token := some "t", usuario := some "u" }
        { status := 500, errorDetail := none, body := "" }).outcome =
      Except.error "Erro na requisição" ∧
    (apiRequest { token := some "t", usuario := some "u" }
        { status := 200, errorDetail := none, body := "corpo" }).outcome =
      Except.ok "corpo" := by
  have h401 := c2_apiRequest_contract { token := some "t", usuario := some "u" }
    { status := 401, errorDetail := none, body := "" }
  have h500d := c2_apiRequest_contract { token := some "t", usuario := some "u" }
    { status := 500, errorDetail := some "boom", body := "" }
  have h500 := c2_apiRequest_contract { token := some "t", usuario := some "u" }
    { status := 500, errorDetail := none, body := "" }
  have h200 := c2_apiRequest_contract { token := some "t", usuario := some "u" }
    { status := 200, errorDetail := none, body := "corpo" }
  exact ⟨(h401.1 rfl).1, (h401.1 rfl).2.1, h500d.2.1 (by decide),
    h500.2.2.1 (by decide) rfl, (h200.2.2.2 (by decide)).1⟩

/-- In a duplicate-free list, filtering for one of its members yields
exactly that member. -/
theorem filter_beq_of_nodup {l : List String} {a : String}
    (hnd : l.Nodup) (ha : a ∈ l) : l.filter (fun x => x == a) = [a] := by
  induction l with
  | nil => cases ha
  | cons b t ih =>
    rcases List.nodup_cons.mp hnd with ⟨hbt, hndt⟩
    rcases List.mem_cons.mp ha with h | h
    · subst h
      have ht : t.filter (fun x => x == a) = [] := by
        apply List.filter_eq_nil_iff.mpr
        intro x hx
        simp only [beq_iff_eq]
        intro hxa; exact hbt (hxa ▸ hx)
      simp [List.filter_cons, ht]
    · have hba : ¬(b = a) := fun hba => hbt (hba ▸ h)
      simp [List.filter_cons, hba, ih hndt h]

/-- A non-empty resolved area is always one of the mapping's keys
(either the direct key hit or the key of the fallback entry). -/
theorem resolveArea_mem (areas : AreasMapping) (u : Usuario)
    (h : resolveArea areas (some u) ≠ "") :
    resolveArea areas (some u) ∈ areas.map Prod.fst := by
  unfold resolveArea at *
  by_cases hd : u.disciplina = ""
  · simp [hd] at h
  · simp only [hd, if_false] at *
    by_cases hc : (areas.map Prod.fst).contains u.disciplina
    · simp only [hc, if_true]
      exact List.mem_of_elem_eq_true hc
    · simp only [hc, if_false] at *
      cases hf : areas.find? (fun p => p.2.contains u.disciplina) with
      | none => rw [hf] at h; simp at h
      | some p =>
        simp only [hf]
        exact List.mem_map_of_mem Prod.fst (List.mem_of_find?_eq_some hf)

/-- Claim C3: For a non-admin user whose stored `disciplina` resolved to
an area `A = resolveArea areas (some u)` (direct key match or legacy
first-match scan), the selectable area options are exactly `{A}`,
whatever else the mapping contains (keys assumed duplicate-free, as JS
object keys are). -/
theorem c3_nonadmin_single_area (areas : AreasMapping) (u : Usuario)
    (hadmin : u.is_admin = false) (hdisc : u.disciplina ≠ "")
    (hnd : (areas.map Prod.fst).Nodup)
    (hres : resolveArea areas (some u) ≠ "") :
    areaOptions areas (some u) (resolveArea areas (some u)) =
      [{ value := resolveArea areas (some u), label := resolveArea areas (some u) }] := by
  have hmem := resolveArea_mem areas u hres
  unfold areaOptions
  have hpred : (fun a => (some u).elim "" (·.disciplina) == ""
      || (some u).elim false (·.is_admin) || a == resolveArea areas (some u))
      = fun a => a == resolveArea areas (some u) := by
    funext a
    simp [Option.elim, hadmin, hdisc]
  rw [hpred, filter_beq_of_nodup hnd hmem]
  rfl

/-- The sample mapping of the spec's scenario: one area with two
disciplines. -/
def sampleAreas : AreasMapping := [("Exatas", ["Matemática", "Física"])]

/-- A non-admin user whose stored `disciplina` is a legacy discipline
name, not an area key. -/
def sampleUsuario : Usuario :=
  { id := 1, nome := "Ana", email := "ana@escola.br", disciplina := "Matemática",
    is_admin := false, ativo := true }

/-- Witness for C3 at the sample mapping and user. -/
theorem c3_nonadmin_single_area_witness :
    areaOptions sampleAreas (some sampleUsuario)
        (resolveArea sampleAreas (some sampleUsuario)) =
      [{ value := resolveArea sampleAreas (some sampleUsuario),
         label := resolveArea sampleAreas (some sampleUsuario) }] :=
  c3_nonadmin_single_area sampleAreas sampleUsuario rfl (by decide) (by decide) (by decide)

/-- Claim C4: Whenever the area dropdown changes the selected area, the
discipline selection is reset to `''`; consequently the invariant "the
selected discipline, if set, belongs to the selected area's discipline
list" is preserved by the area change, and by a discipline change whose
value is drawn from the current area's options (or cleared). -/
theorem c4_area_change_resets_disciplina (m : AreasMapping) (u : Option Usuario)
    (s : FilterState) (val : String) :
    ((onAreaChange u s val).area ≠ s.area → (onAreaChange u s val).disciplinaId = "") ∧
    (s.inv m → (onAreaChange u s val).inv m) ∧
    ((val = "" ∨ val ∈ disciplinasDaArea m s.area) → (onDisciplinaChange s val).inv m) := by
  refine ⟨?_, ?_, ?_⟩
  · intro hne
    by_cases h : (u.elim "" (·.disciplina) == "" || u.elim false (·.is_admin)) = true
    · simp [onAreaChange, h]
    · exfalso; apply hne; simp [onAreaChange, h]
  · intro hinv
    by_cases h : (u.elim "" (·.disciplina) == "" || u.elim false (·.is_admin)) = true
    · simp [onAreaChange, h, FilterState.inv]
    · simpa [onAreaChange, h] using hinv
  · intro hval
    simpa [onDisciplinaChange, FilterState.inv] using hval

/-- Witness for C4: changing the area from `Exatas` clears the
discipline; picking a discipline of the current area keeps the
invariant. -/
theorem c4_area_change_resets_disciplina_witness :
    (onAreaChange none { area := "Exatas", disciplinaId := "Matemática" } "Humanas").disciplinaId
      = "" ∧
    (onDisciplinaChange { area := "Exatas", disciplinaId := "" } "Física").inv sampleAreas := by
  have h := c4_area_change_resets_disciplina sampleAreas none
    { area := "Exatas", disciplinaId := "Matemática" } "Humanas"
  have h2 := c4_area_change_resets_disciplina sampleAreas none
    { area := "Exatas", disciplinaId := "" } "Física"
  exact ⟨h.1 (by decide), h2.2.2 (Or.inr (by decide))⟩

/-- Claim C5: A successful save of any action kind re-enters loading and
re-fetches the next question with the same `(area, disciplinaId)`
filter values that were active at submission time: the POST is followed
by exactly one GET built from the submitting state's filters, and the
filters survive into the post-state. -/
theorem c5_success_refetch_same_filters (s : ClassificarState) (t : VerificarState)
    (m : Modulo) (fetch : Except String Questao) :
    (s.moduloSelecionado = some m →
      (handleSalvar s (Except.ok ()) fetch).2.requests =
        [Request.postSalvar (salvarBodyNova (s.questao.elim 0 (·.id)) m s.observacao),
         Request.getProxima (buildQuery s.area s.disciplinaFiltro)]) ∧
    ((handleConfirmar t (Except.ok ()) fetch).2.requests =
      [Request.postSalvar (salvarBodyConfirmacao (t.questao.elim 0 (·.id)) t.observacao),
       Request.getProximaLowMatch (buildQuery t.area t.disciplinaFiltro)]) ∧
    (t.moduloSelecionado = some m →
      (handleSalvarCorrecao t (Except.ok ()) fetch).2.requests =
        [Request.postSalvar (salvarBodyCorrecao (t.questao.elim 0 (·.id)) m t.observacao),
         Request.getProximaLowMatch (buildQuery t.area t.disciplinaFiltro)]) ∧
    ((fetchProximaStart s).loading = true ∧ (fetchProximaVerifStart t).loading = true) ∧
    ((handleSalvar s (Except.ok ()) fetch).1.area = s.area ∧
     (handleSalvar s (Except.ok ()) fetch).1.disciplinaFiltro = s.disciplinaFiltro) ∧
    ((handleConfirmar t (Except.ok ()) fetch).1.area = t.area ∧
     (handleConfirmar t (Except.ok ()) fetch).1.disciplinaFiltro = t.disciplinaFiltro) := by
  refine ⟨?_, ?_, ?_, ⟨rfl, rfl⟩, ?_, ?_⟩
  · intro h
    simp [handleSalvar, h, fetchProxima]
  · simp [handleConfirmar, fetchProximaVerif]
  · intro h
    simp [handleSalvarCorrecao, h, fetchProximaVerif]
  · cases hmod : s.moduloSelecionado with
    | none => simp [handleSalvar, hmod]
    | some m' =>
      cases fetch with
      | ok q =>
        simp [handleSalvar, hmod, fetchProxima, fetchProximaFinish, fetchProximaStart]
      | error msg =>
        simp [handleSalvar, hmod, fetchProxima, fetchProximaFinish, fetchProximaStart]
  · cases fetch with
    | ok q =>
      simp [handleConfirmar, fetchProximaVerif, fetchProximaVerifFinish, fetchProximaVerifStart]
    | error msg =>
      simp [handleConfirmar, fetchProximaVerif, fetchProximaVerifFinish, fetchProximaVerifStart]

/-- Witness for C5 at the sample states. -/
theorem c5_success_refetch_same_filters_witness :
    (handleSalvar sampleClassificarComModulo (Except.ok ()) (Except.error "")).2.requests =
      [Request.postSalvar (salvarBodyNova 42 sampleModulo "obs"),
       Request.getProxima [("area", "Exatas"), ("disciplina_id", "Matemática")]] ∧
    (handleSalvarCorrecao sampleVerificarComModulo (Except.ok ()) (Except.error "")).2.requests =
      [Request.postSalvar (salvarBodyCorrecao 42 sampleModulo "obs"),
       Request.getProximaLowMatch [("area", "Exatas"), ("disciplina_id", "Matemática")]] := by
  have h := c5_success_refetch_same_filters sampleClassificarComModulo
    sampleVerificarComModulo sampleModulo (Except.error "")
  refine ⟨?_, ?_⟩
  · have h1 := h.1 rfl
    rw [h1]; rfl
  · have h3 := h.2.2.1 rfl
    rw [h3]; rfl

/-- Claim C6: A failed save surfaces the error message as an alert and
leaves the state otherwise unchanged: the post-state is exactly the
pre-state with only `saving` cleared (question, module selection and
observation intact), and only the failed POST was issued. -/
theorem c6_failed_save_state_intact (s : ClassificarState) (t : VerificarState)
    (m : Modulo) (msg : String) (fetch : Except String Questao) :
    (s.moduloSelecionado = some m →
      handleSalvar s (Except.error msg) fetch =
        ({ s with saving := false },
         { requests := [Request.postSalvar
             (salvarBodyNova (s.questao.elim 0 (·.id)) m s.observacao)],
           alerts := [msg] })) ∧
    (t.moduloSelecionado = some m →
      handleSalvarCorrecao t (Except.error msg) fetch =
        ({ t with saving := false },
         { requests := [Request.postSalvar
             (salvarBodyCorrecao (t.questao.elim 0 (·.id)) m t.observacao)],
           alerts := [msg] })) := by
  constructor
  · intro h; simp [handleSalvar, h]
  · intro h; simp [handleSalvarCorrecao, h]

/-- Witness for C6 at the sample states. -/
theorem c6_failed_save_state_intact_witness :
    handleSalvar sampleClassificarComModulo (Except.error "falha") (Except.error "") =
      ({ sampleClassificarComModulo with saving := false },
       { requests := [Request.postSalvar (salvarBodyNova 42 sampleModulo "obs")],
         alerts := ["falha"] }) ∧
    handleSalvarCorrecao sampleVerificarComModulo (Except.error "falha") (Except.error "") =
      ({ sampleVerificarComModulo with saving := false },
       { requests := [Request.postSalvar (salvarBodyCorrecao 42 sampleModulo "obs")],
         alerts := ["falha"] }) := by
  have h := c6_failed_save_state_intact sampleClassificarComModulo sampleVerificarComModulo
    sampleModulo "falha" (Except.error "")
  exact ⟨h.1 rfl, h.2 rfl⟩

/-- Claim C7: Skip and filter-change both run `fetchProxima`: it issues
exactly one GET (no POST to `/salvar`), the pre-await state reset turns
loading on and clears the held question, module selection and
observation (plus the correcting sub-mode on the verification page)
while keeping the filters, and empty filter values are omitted from the
query parameters. -/
theorem c7_fetch_submits_nothing (a d : String) (s : ClassificarState)
    (t : VerificarState) (r : Except String Questao) :
    ((fetchProxima a d s r).2.requests = [Request.getProxima (buildQuery a d)]) ∧
    ((fetchProximaVerif a d t r).2.requests = [Request.getProximaLowMatch (buildQuery a d)]) ∧
    (((fetchProxima a d s r).2.requests.all fun req => !req.isPost) = true) ∧
    (((fetchProximaVerif a d t r).2.requests.all fun req => !req.isPost) = true) ∧
    ((fetchProximaStart s).loading = true ∧ (fetchProximaStart s).questao = none ∧
     (fetchProximaStart s).moduloSelecionado = none ∧ (fetchProximaStart s).observacao = "" ∧
     (fetchProximaStart s).area = s.area ∧
     (fetchProximaStart s).disciplinaFiltro = s.disciplinaFiltro) ∧
    ((fetchProximaVerifStart t).loading = true ∧ (fetchProximaVerifStart t).questao = none ∧
     (fetchProximaVerifStart t).moduloSelecionado = none ∧
     (fetchProximaVerifStart t).observacao = "" ∧
     (fetchProximaVerifStart t).isCorrecting = false ∧
     (fetchProximaVerifStart t).area = t.area ∧
     (fetchProximaVerifStart t).disciplinaFiltro = t.disciplinaFiltro) ∧
    ((buildQuery a d).lookup "area" = if a = "" then none else some a) ∧
    ((buildQuery a d).lookup "disciplina_id" = if d = "" then none else some d) := by
  refine ⟨rfl, rfl, ?_, ?_, ⟨rfl, rfl, rfl, rfl, rfl, rfl⟩,
    ⟨rfl, rfl, rfl, rfl, rfl, rfl, rfl⟩, ?_, ?_⟩
  · simp [fetchProxima, Request.isPost]
  · simp [fetchProximaVerif, Request.isPost]
  · by_cases ha : a = ""
    · by_cases hd : d = ""
      · simp [buildQuery, ha, hd]
      · simp [buildQuery, ha, hd, List.lookup]
    · simp [buildQuery, ha, List.lookup]
  · by_cases ha : a = ""
    · by_cases hd : d = ""
      · simp [buildQuery, ha, hd]
      · simp [buildQuery, ha, hd, List.lookup]
    · by_cases hd : d = ""
      · simp [buildQuery, ha, hd, List.lookup]
      · simp [buildQuery, ha, hd, List.lookup]

/-- Claim C8: Concrete scenario: with the mapping
`{"Exatas": ["Matemática","Física"]}` and a non-admin user whose stored
`disciplina` is `"Matemática"` (not a key of the mapping), the area
resolves to `"Exatas"` via the legacy fallback scan, and the discipline
options for that area are exactly `["Matemática","Física"]` in order. -/
theorem c8_legacy_fallback_scenario :
    ((sampleAreas.map Prod.fst).contains "Matemática") = false ∧
    resolveArea sampleAreas (some sampleUsuario) = "Exatas" ∧
    disciplinasDaArea sampleAreas "Exatas" = ["Matemática", "Física"] ∧
    disciplinaOptions sampleAreas "Exatas" =
      [{ value := "Matemática", label := "Matemática" },
       { value := "Física", label := "Física" }] := by
  decide

/-- Claim C9: The badge shows `Math.round(score * 100)` as a percentage;
the styling tier depends only on that rounded percentage, with the green
high-confidence style at `pct ≥ 80`, the yellow middle style at
`60 ≤ pct < 80` and the red low-confidence style below 60; `0.85`
renders as `85%` green and `0.55` as `55%` red; and the similarity score
has no effect on any submitted decision. -/
theorem c9_similarity_badge (s9 : ℚ) (pct : ℤ) :
    (0 ≤ s9 → s9 ≤ 1 →
      MatchBadge (some s9) =
        some (toString (round (s9 * 100)) ++ "%", matchBadgeStyle (round (s9 * 100)))) ∧
    (80 ≤ pct → matchBadgeStyle pct =
      { color := "#166534", bg := "#bbf7d0", borderColor := "#4ade80" }) ∧
    (60 ≤ pct → pct < 80 → matchBadgeStyle pct =
      { color := "#854d0e", bg := "#fef08a", borderColor := "#facc15" }) ∧
    (pct < 60 → matchBadgeStyle pct =
      { color := "#991b1b", bg := "#fecaca", borderColor := "#f87171" }) ∧
    MatchBadge (some (85/100)) =
      some ("85%", { color := "#166534", bg := "#bbf7d0", borderColor := "#4ade80" }) ∧
    MatchBadge (some (55/100)) =
      some ("55%", { color := "#991b1b", bg := "#fecaca", borderColor := "#f87171" }) ∧
    (∀ (t : VerificarState) (q : Questao) (sim1 sim2 : Option ℚ)
      (save : Except String Unit) (fetch : Except String Questao),
      (handleConfirmar { t with questao := some { q with similaridade := sim1 } }
        save fetch).2 =
      (handleConfirmar { t with questao := some { q with similaridade := sim2 } }
        save fetch).2 ∧
      (handleSalvarCorrecao { t with questao := some { q with similaridade := sim1 } }
        save fetch).2 =
      (handleSalvarCorrecao { t with questao := some { q with similaridade := sim2 } }
        save fetch).2) := by
  refine ⟨?_, ?_, ?_, ?_, ?_, ?_, ?_⟩
  · intro _ _
    rfl
  · intro h
    rw [matchBadgeStyle, if_pos (by omega)]
  · intro h1 h2
    rw [matchBadgeStyle, if_neg (by omega), if_pos (by omega)]
  · intro h
    rw [matchBadgeStyle, if_neg (by omega), if_neg (by omega)]
  · have h85 : matchBadgePct (85/100) = 85 := by
      rw [matchBadgePct]; norm_num [round_eq]
    simp only [MatchBadge, h85, matchBadgeText, matchBadgeStyle]
    rfl
  · have h55 : matchBadgePct (55/100) = 55 := by
      rw [matchBadgePct]; norm_num [round_eq]
    simp only [MatchBadge, h55, matchBadgeText, matchBadgeStyle]
    rfl
  · intro t q sim1 sim2 save fetch
    constructor
    · cases save <;> rfl
    · cases hm : t.moduloSelecionado <;> cases save <;>
        simp [handleSalvarCorrecao, hm, fetchProximaVerif]

/-- Witness for C9 at the scenario scores and percentages. -/
theorem c9_similarity_badge_witness :
    MatchBadge (some (85/100)) =
      some (toString (round ((85/100 : ℚ) * 100)) ++ "%",
        matchBadgeStyle (round ((85/100 : ℚ) * 100))) ∧
    matchBadgeStyle 85 =
      { color := "#166534", bg := "#bbf7d0", borderColor := "#4ade80" } ∧
    matchBadgeStyle 55 =
      { color := "#991b1b", bg := "#fecaca", borderColor := "#f87171" } := by
  have h := c9_similarity_badge (85/100) 85
  have h2 := c9_similarity_badge (55/100) 55
  exact ⟨h.1 (by norm_num) (by norm_num), h.2.1 (by norm_num), h2.2.2.2.1 (by norm_num)⟩

/-- Claim C10: `getUsuario` never propagates a parse error: it returns
null when there is no `window`, when the store has no `usuario` entry,
or when the stored entry is not valid JSON, and the parsed profile
otherwise. -/
theorem c10_getUsuario_never_throws (storage : List (String × String))
    (parseJson : String → Option Usuario) (str : String) :
    (getUsuario false storage parseJson = none) ∧
    (storage.lookup "usuario" = none → getUsuario true storage parseJson = none) ∧
    (storage.lookup "usuario" = some str → parseJson str = none →
      getUsuario true storage parseJson = none) ∧
    (storage.lookup "usuario" = some str →
      getUsuario true storage parseJson = parseJson str) := by
  refine ⟨rfl, ?_, ?_, ?_⟩
  · intro h; simp [getUsuario, h]
  · intro h hp; simp [getUsuario, h, hp]
  · intro h; simp [getUsuario, h]

/-- Witness for C10: an invalid stored entry and a missing entry both
yield null. -/
theorem c10_getUsuario_never_throws_witness :
    getUsuario true [("usuario", "nao-json")] (fun _ => none) = none ∧
    getUsuario true [] (fun _ => none) = none := by
  have h := c10_getUsuario_never_throws [("usuario", "nao-json")] (fun _ => none) "nao-json"
  have h2 := c10_getUsuario_never_throws [] (fun _ => none) "x"
  exact ⟨h.2.2.1 (by simp [List.lookup]) rfl, h2.2.1 rfl⟩

end Pluri
